import Mathlib

/-
Shallow embedding of the persistent store of the miden client repository
(src/store/notes.rs, src/store/transactions.rs, src/errors.rs), together
with models of the external ledger-object library (notes, inclusion
proofs, digests) and of the account/client helpers whose sources are not
part of the given tree.  Machine integers of the source (u32, u64, i64)
are modelled as Nat: every cast the source performs on them
(u64 -> i64 -> u64) is bijective, so no wrap-around is observable.
-/

namespace Miden

/-- Model of a persisted column value produced by an external codec
(binary serialization, hex string of a digest, json text).  The external
library guarantees a round trip for values it encoded (`good`), while a
file corrupted by external tooling can hold arbitrary bytes that decode
to nothing (`bad`). -/
inductive Enc (α : Type) where
  | good : α → Enc α
  | bad : Nat → Enc α
deriving DecidableEq

/-- Decoding an encoded column value: succeeds exactly on well-formed
encodings, mirroring the round-trip contract of the external codecs. -/
def Enc.decode {α : Type} : Enc α → Option α
  | Enc.good a => some a
  | Enc.bad _ => none

/-- Model of `objects::Digest`: an opaque word-sized value. -/
abbrev Digest := Nat

/-- Model of `objects::notes::Note`: the content fields of a note
(script, inputs, assets, serial number, metadata sender and tag), as used
by the store.  The content-derived id / nullifier digests are computed by
`Note.id` and `Note.nullifier` below. -/
structure Note where
  script : Nat
  inputs : Nat
  assets : Nat
  serial_num : Nat
  sender : Nat
  tag : Nat
deriving DecidableEq

/-- Injective key of a note content, used to model the external
library's content-derived digests. -/
def Note.contentKey (n : Note) : Nat :=
  Nat.pair n.script (Nat.pair n.inputs (Nat.pair n.assets
    (Nat.pair n.serial_num (Nat.pair n.sender n.tag))))

/-- Model of `Note::id()`: a content-derived digest.  Modelled as an even
number so that it never coincides with the (odd) nullifier digest, the
two being distinct hash computations in the external library. -/
def Note.id (n : Note) : Digest := 2 * n.contentKey

/-- Model of `Note::nullifier()`: a content-derived digest distinct from
the note id. -/
def Note.nullifier (n : Note) : Digest := 2 * n.contentKey + 1

/-- Model of `Note::recipient()`: another content-derived digest, only
ever persisted, never read back by this code. -/
def Note.recipient (n : Note) : Digest := n.contentKey

/-- Model of `objects::notes::NoteInclusionProof`: block number,
sub-hash, note root, leaf index and merkle authentication path. -/
structure NoteInclusionProof where
  block_num : Nat
  sub_hash : Digest
  note_root : Digest
  node_index : Nat
  note_path : List Digest
deriving DecidableEq

/-- `InputNoteRecord` of src/store/notes.rs: a note plus an optional
inclusion proof. -/
structure InputNoteRecord where
  note : Note
  inclusion_proof : Option NoteInclusionProof
deriving DecidableEq

/-- Model of `objects::transaction::InputNote`: a note together with its
inclusion proof, as consumed by an executed transaction. -/
structure InputNote where
  note : Note
  proof : NoteInclusionProof
deriving DecidableEq

/-- Model of `InputNote::id()`: returns the id of the underlying note. -/
def InputNote.id (x : InputNote) : Digest := x.note.id

/-- Model of `objects::transaction::OutputNote`, as far as the store
uses it: it has a note id. -/
structure OutputNote where
  note_id : Digest
deriving DecidableEq

/-- Model of `OutputNote::id()`. -/
def OutputNote.id (n : OutputNote) : Digest := n.note_id

/-- Model of `objects::transaction::TransactionScript`: program code,
content hash and input mapping (a map from digests to felt lists). -/
structure TransactionScript where
  code : Nat
  hash : Digest
  inputs : List (Nat × List Nat)
deriving DecidableEq

/-- `TransactionStatus` of the client transaction module, as constructed
by `parse_transaction` in src/store/transactions.rs. -/
inductive TransactionStatus where
  | Pending : TransactionStatus
  | Committed : Nat → TransactionStatus
deriving DecidableEq

/-- `TransactionRecord` of the client transaction module, with exactly
the fields `parse_transaction` constructs and
`mark_transactions_as_committed_by_note_id` reads. -/
structure TransactionRecord where
  id : Digest
  account_id : Nat
  init_account_state : Digest
  final_account_state : Digest
  input_note_nullifiers : List Digest
  output_notes : List OutputNote
  transaction_script : Option TransactionScript
  block_num : Nat
  transaction_status : TransactionStatus
deriving DecidableEq

/-- Modelled from the spec: the account state persisted by the store
(`Account` of the external object library) — storage, vault, nonce and
code components identified by an account id. -/
structure Account where
  account_id : Nat
  code : Nat
  storage : Nat
  vault : Nat
  nonce : Nat
deriving DecidableEq

/-- Modelled from the spec: an account delta, the set of changes a
transaction applies to an account.  Applying it either yields the new
account state or fails with a classified domain error (mismatched final
state), which the model captures with a validity flag. -/
structure AccountDelta where
  valid : Bool
  new_storage : Nat
  new_vault : Nat
  new_nonce : Nat
deriving DecidableEq

/-- Modelled from the spec: `Account::apply_delta` of the external
object library — produces the updated account state, or a domain error
when the delta is invalid. -/
def Account.apply_delta (a : Account) (d : AccountDelta) : Option Account :=
  if d.valid then
    some { a with storage := d.new_storage, vault := d.new_vault, nonce := d.new_nonce }
  else
    none

/-- Modelled from the spec: `ExecutedTransaction` of the client
transaction module, with the accessors the store calls — id, account id,
initial/final account hashes, consumed input notes and produced output
notes. -/
structure ExecutedTransaction where
  id : Digest
  account_id : Nat
  initial_account_hash : Digest
  final_account_hash : Digest
  input_notes : List InputNote
  output_notes : List OutputNote
deriving DecidableEq

/-- Modelled from the spec: `TransactionResult` handed to
`insert_transaction_data` — the executed transaction, the account delta,
the newly created notes, an optional transaction script and the block
number at execution. -/
structure TransactionResult where
  executed_transaction : ExecutedTransaction
  account_delta : AccountDelta
  created_notes : List Note
  transaction_script : Option TransactionScript
  block_num : Nat
deriving DecidableEq

/-- The store error taxonomy of src/errors.rs (the kinds reachable from
the embedded store operations). -/
inductive StoreErr where
  | AccountDataNotFound : Nat → StoreErr
  | AccountError : StoreErr
  | DatabaseError : String → StoreErr
  | DataDeserializationError : StoreErr
  | HexParseError : StoreErr
  | InputNoteNotFound : Digest → StoreErr
  | InputSerializationError : StoreErr
  | JsonDataDeserializationError : StoreErr
  | ParsingError : String → StoreErr
  | QueryError : String → StoreErr
deriving DecidableEq

/-- Outcome of running a fallible Rust function that may also panic
(`expect`/`unwrap` on data that violates an internal assumption). -/
inductive RunResult (α : Type) where
  | ok : α → RunResult α
  | err : StoreErr → RunResult α
  | panicked : String → RunResult α
deriving DecidableEq

/-- A row of the `input_notes` table (schema of src/store/store.sql, as
written by `INSERT_NOTE_QUERY`).  Columns holding encoded payloads are
`Enc` values; the `vault` column holds the encoded note assets, exactly
as `serialize_input_note` writes it. -/
structure NoteRow where
  note_id : Digest
  nullifier : Enc Digest
  script : Enc Nat
  vault : Enc Nat
  inputs : Enc Nat
  serial_num : Enc Nat
  sender_id : Nat
  tag : Nat
  inclusion_proof : Option (Enc NoteInclusionProof)
  recipients : Digest
  status : String
  commit_height : Nat
deriving DecidableEq

/-- A row of the `transactions` table, as written by
`INSERT_TRANSACTION_QUERY`. -/
structure TxRow where
  id : Enc Digest
  account_id : Nat
  init_account_state : Enc Digest
  final_account_state : Enc Digest
  input_notes : Enc (List Digest)
  output_notes : Enc (List OutputNote)
  script_hash : Option (Enc Digest)
  script_inputs : Option (Enc (List (Nat × List Nat)))
  block_num : Nat
  commit_height : Option Nat
deriving DecidableEq

/-- A row of the `transaction_scripts` table, as written by
`INSERT_TRANSACTION_SCRIPT_QUERY`. -/
structure ScriptRow where
  script_hash : Enc Digest
  program : Option (Enc Nat)
deriving DecidableEq

/-- Modelled from the spec: the persisted account state row managed by
src/store/accounts.rs (not part of the given sources) — the account
components plus the account seed. -/
structure AccountRow where
  account_id : Nat
  account : Account
  seed : Nat
deriving DecidableEq

/-- The persistent database owned by the `Store`: the note, transaction,
script and account tables.  The account component tables
(`account_storages`, `account_vaults`) are modelled from the spec. -/
structure DB where
  input_notes : List NoteRow
  transactions : List TxRow
  transaction_scripts : List ScriptRow
  accounts : List AccountRow
  account_storages : List Nat
  account_vaults : List Nat
deriving DecidableEq

-- NOTE STORE (src/store/notes.rs)
-- ===============================================================

/-- `InputNoteFilter` of src/store/notes.rs. -/
inductive InputNoteFilter where
  | All : InputNoteFilter
  | Consumed : InputNoteFilter
  | Committed : InputNoteFilter
  | Pending : InputNoteFilter
deriving DecidableEq

/-- `InputNoteFilter::to_query`: the query for a filter, as the status
condition appended to the base SELECT (`none` when the base query is
used unfiltered). -/
def InputNoteFilter.to_query : InputNoteFilter → Option String
  | InputNoteFilter.All => none
  | InputNoteFilter.Committed => some "committed"
  | InputNoteFilter.Consumed => some "consumed"
  | InputNoteFilter.Pending => some "pending"

/-- The columns selected by the note queries of src/store/notes.rs
(`SerializedInputNoteParts`): script, inputs, vault, serial_num,
sender_id, tag, inclusion_proof. -/
structure SerializedInputNoteParts where
  script : Enc Nat
  inputs : Enc Nat
  vault : Enc Nat
  serial_num : Enc Nat
  sender_id : Nat
  tag : Nat
  inclusion_proof : Option (Enc NoteInclusionProof)
deriving DecidableEq

/-- `parse_input_note_columns`: reads the selected columns of a note row
into `SerializedInputNoteParts` (the row.get calls cannot fail in the
model since the schema fixes the column types). -/
def parse_input_note_columns (r : NoteRow) : SerializedInputNoteParts :=
  { script := r.script
    inputs := r.inputs
    vault := r.vault
    serial_num := r.serial_num
    sender_id := r.sender_id
    tag := r.tag
    inclusion_proof := r.inclusion_proof }

/-- Evaluation of a note SELECT with an optional status condition, over
the `input_notes` table, in table order. -/
def runNotesQuery (db : DB) (cond : Option String) : List SerializedInputNoteParts :=
  (db.input_notes.filter (fun r =>
    match cond with
    | none => true
    | some s => r.status == s)).map parse_input_note_columns

/-- `parse_input_note` of src/store/notes.rs: decode every encoded
column, rebuild the note from its parts, and decode the optional
inclusion proof; every decode failure is returned as a classified store
error. -/
def parse_input_note (p : SerializedInputNoteParts) : Except StoreErr InputNoteRecord :=
  match p.script.decode with
  | none => Except.error StoreErr.DataDeserializationError
  | some script =>
    match p.inputs.decode with
    | none => Except.error StoreErr.DataDeserializationError
    | some inputs =>
      match p.vault.decode with
      | none => Except.error StoreErr.DataDeserializationError
      | some note_assets =>
        match p.serial_num.decode with
        | none => Except.error StoreErr.JsonDataDeserializationError
        | some serial_num =>
          let note : Note :=
            { script := script, inputs := inputs, assets := note_assets
              serial_num := serial_num, sender := p.sender_id, tag := p.tag }
          match p.inclusion_proof with
          | none => Except.ok { note := note, inclusion_proof := none }
          | some encProof =>
            match encProof.decode with
            | none => Except.error StoreErr.DataDeserializationError
            | some proof => Except.ok { note := note, inclusion_proof := some proof }

/-- `serialize_input_note` of src/store/notes.rs: the database row for a
record.  For a record with an inclusion proof the first node of the
merkle path is removed before persisting (the node constructs paths
keyed by note id rather than authentication hash), the status is
`committed` and the commit height is the proof block number; without a
proof the status is `pending` with commit height 0. -/
def serialize_input_note (note : InputNoteRecord) : NoteRow :=
  let base := note.note
  match note.inclusion_proof with
  | some proof =>
    let path := if 0 < proof.note_path.length then proof.note_path.tail else proof.note_path
    { note_id := base.id
      nullifier := Enc.good base.nullifier
      script := Enc.good base.script
      vault := Enc.good base.assets
      inputs := Enc.good base.inputs
      serial_num := Enc.good base.serial_num
      sender_id := base.sender
      tag := base.tag
      inclusion_proof := some (Enc.good
        { block_num := proof.block_num, sub_hash := proof.sub_hash
          note_root := proof.note_root, node_index := proof.node_index
          note_path := path })
      recipients := base.recipient
      status := "committed"
      commit_height := proof.block_num }
  | none =>
    { note_id := base.id
      nullifier := Enc.good base.nullifier
      script := Enc.good base.script
      vault := Enc.good base.assets
      inputs := Enc.good base.inputs
      serial_num := Enc.good base.serial_num
      sender_id := base.sender
      tag := base.tag
      inclusion_proof := none
      recipients := base.recipient
      status := "pending"
      commit_height := 0 }

/-- `Store::insert_input_note_tx`: executes `INSERT_NOTE_QUERY` inside a
database transaction; a primary-key violation on `note_id` is returned
as a `QueryError`. -/
def insert_input_note_tx (db : DB) (note : InputNoteRecord) : Except StoreErr DB :=
  let row := serialize_input_note note
  if db.input_notes.any (fun r => r.note_id == row.note_id) then
    Except.error (StoreErr.QueryError "UNIQUE constraint failed: input_notes.note_id")
  else
    Except.ok { db with input_notes := db.input_notes ++ [row] }

/-- `Store::insert_input_note`: wraps `insert_input_note_tx` in its own
database transaction (rolled back when the insert fails). -/
def insert_input_note (db : DB) (note : InputNoteRecord) : Except StoreErr DB :=
  insert_input_note_tx db note

/-- `Store::get_input_notes`: run the filter query and parse every
selected row, failing on the first parse error. -/
def get_input_notes (db : DB) (note_filter : InputNoteFilter) :
    Except StoreErr (List InputNoteRecord) :=
  (runNotesQuery db note_filter.to_query).mapM parse_input_note

/-- `Store::get_input_note_by_id`: select the row with the given note
id, parse the first match, and fail with `InputNoteNotFound` when there
is none. -/
def get_input_note_by_id (db : DB) (note_id : Digest) : Except StoreErr InputNoteRecord :=
  match (db.input_notes.filter (fun r => r.note_id == note_id)).map
      parse_input_note_columns with
  | [] => Except.error (StoreErr.InputNoteNotFound note_id)
  | p :: _ => parse_input_note p

/-- The per-row step of `get_unspent_input_note_nullifiers`: read the
nullifier column and parse it as a digest, classifying a malformed
value as a hex-parse error. -/
def unspentStep (r : NoteRow) : Except StoreErr Digest :=
  match r.nullifier.decode with
  | none => Except.error StoreErr.HexParseError
  | some d => Except.ok d

/-- `Store::get_unspent_input_note_nullifiers`: select the nullifier
column of every row whose status is exactly `committed` and parse each
value as a digest. -/
def get_unspent_input_note_nullifiers (db : DB) : Except StoreErr (List Digest) :=
  (db.input_notes.filter (fun r => r.status == "committed")).mapM unspentStep

-- TRANSACTION STORE (src/store/transactions.rs)
-- ===============================================================

/-- `TransactionFilter` of src/store/transactions.rs. -/
inductive TransactionFilter where
  | All : TransactionFilter
  | Uncomitted : TransactionFilter
deriving DecidableEq

/-- `TransactionFilter::to_query`: whether the base SELECT (a LEFT JOIN
of `transactions` against `transaction_scripts` on the script hash) is
restricted to rows whose `commit_height` is NULL. -/
def TransactionFilter.to_query : TransactionFilter → Bool
  | TransactionFilter.All => false
  | TransactionFilter.Uncomitted => true

/-- `SerializedTransactionData` of src/store/transactions.rs: the column
tuple written by `insert_proven_transaction_data` and read back by
`parse_transaction_columns` (where `script_program` is the LEFT-JOINed
`transaction_scripts.program` column). -/
structure SerializedTransactionData where
  id : Enc Digest
  account_id : Nat
  init_account_state : Enc Digest
  final_account_state : Enc Digest
  input_notes : Enc (List Digest)
  output_notes : Enc (List OutputNote)
  script_program : Option (Enc Nat)
  script_hash : Option (Enc Digest)
  script_inputs : Option (Enc (List (Nat × List Nat)))
  block_num : Nat
  commit_height : Option Nat
deriving DecidableEq

/-- `serialize_transaction_data` of src/store/transactions.rs.  The
variable holding the encoded `input_notes` column is named `nullifiers`
in the source but is computed from `InputNote::id` (the note id digest),
exactly as the source does.  The commit height component is always
`None`. -/
def serialize_transaction_data (transaction_result : TransactionResult) :
    Except StoreErr SerializedTransactionData :=
  let executed_transaction := transaction_result.executed_transaction
  let nullifiers : List Digest := executed_transaction.input_notes.map (fun x => x.id)
  let input_notes := Enc.good nullifiers
  let output_notes := executed_transaction.output_notes
  let script_fields : Option (Enc Nat) × Option (Enc Digest) ×
      Option (Enc (List (Nat × List Nat))) :=
    match transaction_result.transaction_script with
    | some tx_script =>
      (some (Enc.good tx_script.code), some (Enc.good tx_script.hash),
        some (Enc.good tx_script.inputs))
    | none => (none, none, none)
  Except.ok
    { id := Enc.good executed_transaction.id
      account_id := executed_transaction.account_id
      init_account_state := Enc.good executed_transaction.initial_account_hash
      final_account_state := Enc.good executed_transaction.final_account_hash
      input_notes := input_notes
      output_notes := Enc.good output_notes
      script_program := script_fields.1
      script_hash := script_fields.2.1
      script_inputs := script_fields.2.2
      block_num := transaction_result.block_num
      commit_height := none }

/-- `Store::insert_proven_transaction_data`: serialize the transaction,
insert the script row when a script hash is present (an
`INSERT OR IGNORE`, a no-op when a row with that hash already exists),
then insert the transaction row (a plain INSERT whose primary-key
violation on `id` is a database error). -/
def insert_proven_transaction_data (db : DB) (transaction_result : TransactionResult) :
    Except StoreErr DB :=
  match serialize_transaction_data transaction_result with
  | Except.error e => Except.error e
  | Except.ok d =>
    let db :=
      match d.script_hash with
      | some hash =>
        if db.transaction_scripts.any (fun s => s.script_hash == hash) then db
        else { db with transaction_scripts :=
          db.transaction_scripts ++
            [({ script_hash := hash, program := d.script_program } : ScriptRow)] }
      | none => db
    if db.transactions.any (fun r => r.id == d.id) then
      Except.error (StoreErr.DatabaseError "UNIQUE constraint failed: transactions.id")
    else
      Except.ok { db with transactions := db.transactions ++
        [({ id := d.id
            account_id := d.account_id
            init_account_state := d.init_account_state
            final_account_state := d.final_account_state
            input_notes := d.input_notes
            output_notes := d.output_notes
            script_hash := d.script_hash
            script_inputs := d.script_inputs
            block_num := d.block_num
            commit_height := d.commit_height } : TxRow)] }

/-- Modelled from the spec: `Store::get_account_by_id` of
src/store/accounts.rs (not part of the given sources) — loads the
persisted account state and seed for an account id, failing with
`AccountDataNotFound` when absent. -/
def get_account_by_id (db : DB) (account_id : Nat) : Except StoreErr (Account × Nat) :=
  match db.accounts.find? (fun a => a.account_id == account_id) with
  | some a => Except.ok (a.account, a.seed)
  | none => Except.error (StoreErr.AccountDataNotFound account_id)

/-- Modelled from the spec: `Store::insert_account_storage` of
src/store/accounts.rs — persists the updated account storage component
inside the caller's database transaction. -/
def insert_account_storage (db : DB) (storage : Nat) : DB :=
  { db with account_storages := db.account_storages ++ [storage] }

/-- Modelled from the spec: `Store::insert_account_asset_vault` of
src/store/accounts.rs — persists the updated account vault component
inside the caller's database transaction. -/
def insert_account_asset_vault (db : DB) (vault : Nat) : DB :=
  { db with account_vaults := db.account_vaults ++ [vault] }

/-- Modelled from the spec: `Store::insert_account_record` of
src/store/accounts.rs — persists the updated account record (keyed by
account id) inside the caller's database transaction. -/
def insert_account_record (db : DB) (account : Account) (seed : Nat) : DB :=
  { db with accounts :=
      (db.accounts.filter (fun a => a.account_id != account.account_id)) ++
        [{ account_id := account.account_id, account := account, seed := seed }] }

/-- The note-insert loop of `insert_transaction_data`: insert every
created note through `insert_input_note_tx`, stopping at the first
failure. -/
def insertCreatedNotes : DB → List InputNoteRecord → Except StoreErr DB
  | db, [] => Except.ok db
  | db, note :: rest =>
    match insert_input_note_tx db note with
    | Except.error e => Except.error e
    | Except.ok db => insertCreatedNotes db rest

/-- The write sequence of `insert_transaction_data` performed inside the
single database transaction: transaction data, account storage, vault
and record, then every created note. -/
def insertTransactionWrites (db : DB) (tx_result : TransactionResult)
    (account : Account) (seed : Nat) (created_notes : List InputNoteRecord) :
    Except StoreErr DB :=
  match insert_proven_transaction_data db tx_result with
  | Except.error e => Except.error e
  | Except.ok db =>
    let db := insert_account_storage db account.storage
    let db := insert_account_asset_vault db account.vault
    let db := insert_account_record db account seed
    insertCreatedNotes db created_notes

/-- `Store::insert_transaction_data`: load the account, apply the delta,
then run every write inside one database transaction; the transaction is
committed on success and rolled back (the database is left untouched) on
any failure.  Returns the database after the call together with the
error when one occurred. -/
def insert_transaction_data (db : DB) (tx_result : TransactionResult) :
    DB × Option StoreErr :=
  let account_id := tx_result.executed_transaction.account_id
  match get_account_by_id db account_id with
  | Except.error e => (db, some e)
  | Except.ok (account, seed) =>
    match account.apply_delta tx_result.account_delta with
    | none => (db, some StoreErr.AccountError)
    | some account =>
      let created_notes := tx_result.created_notes.map (fun note =>
        ({ note := note, inclusion_proof := none } : InputNoteRecord))
      match insertTransactionWrites db tx_result account seed created_notes with
      | Except.ok staged => (staged, none)
      | Except.error e => (db, some e)

/-- One iteration of the update loop of
`mark_transactions_as_committed_by_note_id`: execute
`UPDATE transactions set commit_height=? where id=?` for one selected
record — set `commit_height` on every table row with that id — and add
the number of rows changed to the running total. -/
def markStep (block_num : Nat) (acc : DB × Nat) (t : TransactionRecord) : DB × Nat :=
  let rows := (acc.1.transactions.filter (fun r => r.id == Enc.good t.id)).length
  ({ acc.1 with transactions := acc.1.transactions.map (fun r =>
      if r.id == Enc.good t.id then { r with commit_height := some block_num } else r) },
    acc.2 + rows)

/-- `Store::mark_transactions_as_committed_by_note_id`: filter the
caller-supplied records to those whose output notes intersect the given
note-id list, then run one UPDATE per selected record, accumulating the
number of rows changed. -/
def mark_transactions_as_committed_by_note_id
    (uncommitted_transactions : List TransactionRecord) (note_ids : List Digest)
    (block_num : Nat) (db : DB) : DB × Nat :=
  let updated_transactions := uncommitted_transactions.filter (fun t =>
    t.output_notes.any (fun n => note_ids.contains n.id))
  updated_transactions.foldl (markStep block_num) (db, 0)

/-- `parse_transaction` of src/store/transactions.rs: decode every
column; when a script hash is present the program and inputs columns are
unwrapped with `expect`, which panics when the column is NULL (a missing
script row under the LEFT JOIN, or a NULL `script_inputs`). -/
def parse_transaction (d : SerializedTransactionData) : RunResult TransactionRecord :=
  match d.id.decode with
  | none => RunResult.err StoreErr.HexParseError
  | some id =>
    match d.init_account_state.decode with
    | none => RunResult.err StoreErr.HexParseError
    | some init_account_state =>
      match d.final_account_state.decode with
      | none => RunResult.err StoreErr.HexParseError
      | some final_account_state =>
        match d.input_notes.decode with
        | none => RunResult.err StoreErr.JsonDataDeserializationError
        | some input_note_nullifiers =>
          match d.output_notes.decode with
          | none => RunResult.err StoreErr.DataDeserializationError
          | some output_notes =>
            let scriptStep : RunResult (Option TransactionScript) :=
              match d.script_hash with
              | none => RunResult.ok none
              | some hash_enc =>
                match hash_enc.decode with
                | none => RunResult.err StoreErr.DataDeserializationError
                | some script_hash =>
                  match d.script_program with
                  | none => RunResult.panicked "Script program should be included in the row"
                  | some program_enc =>
                    match program_enc.decode with
                    | none => RunResult.err StoreErr.DataDeserializationError
                    | some script_program =>
                      match d.script_inputs with
                      | none => RunResult.panicked "Script inputs should be included in the row"
                      | some inputs_enc =>
                        match inputs_enc.decode with
                        | none => RunResult.err StoreErr.JsonDataDeserializationError
                        | some script_inputs =>
                          RunResult.ok (some
                            { code := script_program, hash := script_hash
                              inputs := script_inputs })
            match scriptStep with
            | RunResult.err e => RunResult.err e
            | RunResult.panicked msg => RunResult.panicked msg
            | RunResult.ok transaction_script =>
              let transaction_status :=
                match d.commit_height with
                | none => TransactionStatus.Pending
                | some height => TransactionStatus.Committed height
              RunResult.ok
                { id := id
                  account_id := d.account_id
                  init_account_state := init_account_state
                  final_account_state := final_account_state
                  input_note_nullifiers := input_note_nullifiers
                  output_notes := output_notes
                  transaction_script := transaction_script
                  block_num := d.block_num
                  transaction_status := transaction_status }

/-- The LEFT JOIN of `transactions` against `transaction_scripts` used
by every transaction SELECT: the program column of the matching script
row, NULL when the transaction has no script hash or no script row
matches. -/
def joinScriptProgram (db : DB) (r : TxRow) : Option (Enc Nat) :=
  match r.script_hash with
  | none => none
  | some h =>
    match db.transaction_scripts.find? (fun s => s.script_hash == h) with
    | some s => s.program
    | none => none

/-- The column tuple produced for a transaction row by the joined
SELECT of `TransactionFilter::to_query`. -/
def txRowToParts (db : DB) (r : TxRow) : SerializedTransactionData :=
  { id := r.id
    account_id := r.account_id
    init_account_state := r.init_account_state
    final_account_state := r.final_account_state
    input_notes := r.input_notes
    output_notes := r.output_notes
    script_program := joinScriptProgram db r
    script_hash := r.script_hash
    script_inputs := r.script_inputs
    block_num := r.block_num
    commit_height := r.commit_height }

/-- `Store::get_transactions`: evaluate the filter query (optionally
restricted to rows with NULL `commit_height`) and parse every row. -/
def get_transactions (db : DB) (transaction_filter : TransactionFilter) :
    RunResult (List TransactionRecord) :=
  let rows := (db.transactions.filter (fun r =>
    if transaction_filter.to_query then r.commit_height == none else true)).map
      (txRowToParts db)
  rows.foldr (fun p acc =>
    match parse_transaction p with
    | RunResult.err e => RunResult.err e
    | RunResult.panicked msg => RunResult.panicked msg
    | RunResult.ok rec =>
      match acc with
      | RunResult.err e => RunResult.err e
      | RunResult.panicked msg => RunResult.panicked msg
      | RunResult.ok recs => RunResult.ok (rec :: recs)) (RunResult.ok [])

-- CLAIM-SIDE DEFINITIONS AND CONCRETE INPUTS
-- ===============================================================

/-- The status predicate the specification assigns to each note filter
(refinement side of the filter-correctness claim): `All` matches every
status, each other variant matches exactly its own status. -/
def specFilterMatches : InputNoteFilter → String → Bool
  | InputNoteFilter.All, _ => true
  | InputNoteFilter.Pending, s => s == "pending"
  | InputNoteFilter.Committed, s => s == "committed"
  | InputNoteFilter.Consumed, s => s == "consumed"

/-- A well-formed transaction column tuple except that the script hash
is present while the LEFT-JOINed program column is NULL — the on-disk
shape of a transaction whose script row is missing. -/
def inconsistentTxParts : SerializedTransactionData :=
  { id := Enc.good 1
    account_id := 0
    init_account_state := Enc.good 2
    final_account_state := Enc.good 3
    input_notes := Enc.good []
    output_notes := Enc.good []
    script_program := none
    script_hash := some (Enc.good 9)
    script_inputs := none
    block_num := 0
    commit_height := none }

/-- A concrete note consumed by a transaction. -/
def noteC2 : Note :=
  { script := 1, inputs := 2, assets := 3, serial_num := 4, sender := 5, tag := 6 }

/-- A concrete transaction result consuming `noteC2`. -/
def txrC2 : TransactionResult :=
  { executed_transaction :=
      { id := 42
        account_id := 1
        initial_account_hash := 7
        final_account_hash := 8
        input_notes := [{ note := noteC2
                          proof := { block_num := 1, sub_hash := 2, note_root := 3
                                     node_index := 0, note_path := [] } }]
        output_notes := [] }
    account_delta := { valid := true, new_storage := 1, new_vault := 2, new_nonce := 3 }
    created_notes := []
    transaction_script := none
    block_num := 5 }

/-- A transaction result over account 1 whose transaction id collides
with `txRowC1` below, forcing the final transaction-row insert to
fail. -/
def txrC1 : TransactionResult :=
  { executed_transaction :=
      { id := 42
        account_id := 1
        initial_account_hash := 7
        final_account_hash := 8
        input_notes := []
        output_notes := [] }
    account_delta := { valid := true, new_storage := 1, new_vault := 2, new_nonce := 3 }
    created_notes := [noteC2]
    transaction_script := none
    block_num := 5 }

/-- A pre-existing transaction row whose id collides with `txrC1`. -/
def txRowC1 : TxRow :=
  { id := Enc.good 42
    account_id := 1
    init_account_state := Enc.good 0
    final_account_state := Enc.good 0
    input_notes := Enc.good []
    output_notes := Enc.good []
    script_hash := none
    script_inputs := none
    block_num := 1
    commit_height := none }

/-- A database holding account 1 and the colliding transaction row. -/
def dbC1 : DB :=
  { input_notes := []
    transactions := [txRowC1]
    transaction_scripts := []
    accounts := [{ account_id := 1
                   account := { account_id := 1, code := 0, storage := 0, vault := 0, nonce := 0 }
                   seed := 0 }]
    account_storages := []
    account_vaults := [] }

-- THEOREMS
-- ===============================================================

/-- C1: `insert_transaction_data` is all-or-nothing — whenever any of
its steps fails (the account lookup, the delta application, or any write
of the enclosed database transaction, including a duplicate transaction
id), the database after the call is exactly the database before it: no
partial account update, orphaned note, or dangling script row remains
visible. -/
theorem insert_transaction_data_atomic (db : DB) (tx_result : TransactionResult)
    (e : StoreErr) (h : (insert_transaction_data db tx_result).2 = some e) :
    (insert_transaction_data db tx_result).1 = db := by
  revert h
  unfold insert_transaction_data
  dsimp only
  split
  · intro _; rfl
  · split
    · intro _; rfl
    · split
      · intro h; exact absurd h (by simp)
      · intro _; rfl

/-- Witness for C1: forcing a duplicate transaction id at the
transaction-row insert leaves the database exactly as it was. -/
theorem insert_transaction_data_atomic_witness :
    (insert_transaction_data dbC1 txrC1).2 =
      some (StoreErr.DatabaseError "UNIQUE constraint failed: transactions.id") ∧
    (insert_transaction_data dbC1 txrC1).1 = dbC1 :=
  ⟨by decide, insert_transaction_data_atomic dbC1 txrC1
    (StoreErr.DatabaseError "UNIQUE constraint failed: transactions.id") (by decide)⟩

/-- C5: `get_input_notes` with each filter returns exactly the records
whose persisted status satisfies the filter predicate of the
specification — `All` matches every status and each other variant
matches exactly its own status — with no extras and no omissions. -/
theorem get_input_notes_filter_correct (db : DB) (f : InputNoteFilter) :
    get_input_notes db f =
      ((db.input_notes.filter (fun r => specFilterMatches f r.status)).map
        parse_input_note_columns).mapM parse_input_note := by
  cases f <;> rfl

/-- C8 (failing input): `parse_transaction` panics — it does not return
a classified error — on a row whose script hash is non-NULL while the
LEFT-JOINed script program column is NULL, an on-disk shape reachable by
external corruption of the `transaction_scripts` table. -/
theorem parse_transaction_panics_on_missing_program :
    parse_transaction inconsistentTxParts =
      RunResult.panicked "Script program should be included in the row" := by
  decide

/-- C2 (failing input): `serialize_transaction_data` stores the note
ids of the consumed input notes in the `input_notes` column, not their
nullifiers — at `txrC2` the stored list is the id list, and the note id
differs from the nullifier. -/
theorem serialize_transaction_data_stores_ids_not_nullifiers :
    (serialize_transaction_data txrC2).toOption.map (fun d => d.input_notes) =
      some (Enc.good [Note.id noteC2]) ∧
    Note.id noteC2 ≠ Note.nullifier noteC2 := by
  decide

/-- Inversion of `parse_transaction`: any successfully parsed record
carries the status derived from the `commit_height` column. -/
theorem parse_transaction_status_eq (d : SerializedTransactionData)
    (rec : TransactionRecord) (hp : parse_transaction d = RunResult.ok rec) :
    rec.transaction_status =
      (match d.commit_height with
       | none => TransactionStatus.Pending
       | some height => TransactionStatus.Committed height) := by
  revert hp
  unfold parse_transaction
  dsimp only
  repeat' split
  all_goals intro hp
  all_goals cases hp <;> rfl

/-- A concrete transaction result for the commit-height invariant. -/
def txrC9 : TransactionResult :=
  { executed_transaction :=
      { id := 11
        account_id := 2
        initial_account_hash := 3
        final_account_hash := 4
        input_notes := []
        output_notes := [] }
    account_delta := { valid := true, new_storage := 0, new_vault := 0, new_nonce := 0 }
    created_notes := []
    transaction_script := none
    block_num := 9 }

/-- The serialized columns `serialize_transaction_data` produces for
`txrC9`. -/
def serC9 : SerializedTransactionData :=
  { id := Enc.good 11
    account_id := 2
    init_account_state := Enc.good 3
    final_account_state := Enc.good 4
    input_notes := Enc.good []
    output_notes := Enc.good []
    script_program := none
    script_hash := none
    script_inputs := none
    block_num := 9
    commit_height := none }

/-- A concrete stored transaction row with a non-null commit height. -/
def partsC9 : SerializedTransactionData :=
  { id := Enc.good 12
    account_id := 2
    init_account_state := Enc.good 3
    final_account_state := Enc.good 4
    input_notes := Enc.good []
    output_notes := Enc.good []
    script_program := none
    script_hash := none
    script_inputs := none
    block_num := 9
    commit_height := some 5 }

/-- The record `parse_transaction` recovers from `partsC9`. -/
def recC9 : TransactionRecord :=
  { id := 12
    account_id := 2
    init_account_state := 3
    final_account_state := 4
    input_note_nullifiers := []
    output_notes := []
    transaction_script := none
    block_num := 9
    transaction_status := TransactionStatus.Committed 5 }

/-- C9: the persisted `commit_height` is null iff the record status is
Pending — `serialize_transaction_data` (and hence
`insert_transaction_data`, which persists its output) always writes a
null commit height, and a record read back has status `Committed h`
exactly when the stored commit height is `h`, status `Pending` exactly
when it is null. -/
theorem commit_height_null_iff_pending
    (txr : TransactionResult) (d0 : SerializedTransactionData)
    (hs : serialize_transaction_data txr = Except.ok d0)
    (d : SerializedTransactionData) (rec : TransactionRecord)
    (hp : parse_transaction d = RunResult.ok rec) (height : Nat) :
    d0.commit_height = none ∧
    (rec.transaction_status = TransactionStatus.Pending ↔ d.commit_height = none) ∧
    (rec.transaction_status = TransactionStatus.Committed height ↔
      d.commit_height = some height) := by
  have hst := parse_transaction_status_eq d rec hp
  refine ⟨?_, ?_, ?_⟩
  · revert hs
    unfold serialize_transaction_data
    dsimp only
    intro hs
    cases hs
    rfl
  · rw [hst]; cases d.commit_height <;> simp
  · rw [hst]; cases d.commit_height <;> simp

/-- Witness for C9 at concrete inputs: the freshly serialized row has a
null commit height, and a row stored with commit height 5 parses to
status `Committed 5`. -/
theorem commit_height_null_iff_pending_witness :
    serialize_transaction_data txrC9 = Except.ok serC9 ∧
    parse_transaction partsC9 = RunResult.ok recC9 ∧
    (serC9.commit_height = none ∧
      (recC9.transaction_status = TransactionStatus.Pending ↔ partsC9.commit_height = none) ∧
      (recC9.transaction_status = TransactionStatus.Committed 5 ↔
        partsC9.commit_height = some 5)) :=
  ⟨rfl, by decide,
    commit_height_null_iff_pending txrC9 serC9 rfl partsC9 recC9 (by decide) 5⟩

/-- The update loop of `mark_transactions_as_committed_by_note_id` maps
every table row through one overwrite: a row gets `commit_height` set to
the block number exactly when its id equals some selected record's id,
regardless of the row's stored commit height. -/
theorem markFold_transactions (block_num : Nat) (ud : List TransactionRecord) :
    ∀ (db : DB) (k : Nat),
      (ud.foldl (markStep block_num) (db, k)).1.transactions =
        db.transactions.map (fun r =>
          if ud.any (fun t => r.id == Enc.good t.id) then
            { r with commit_height := some block_num } else r) := by
  induction ud with
  | nil =>
    intro db k
    simp
  | cons t ud ih =>
    intro db k
    rw [List.foldl_cons, ih]
    dsimp only [markStep]
    rw [List.map_map]
    apply List.map_congr_left
    intro r _
    by_cases hc : r.id = Enc.good t.id
    · simp [hc]
    · simp [hc]

/-- The update loop returns the total number of rows changed: the sum,
over the selected records, of the number of table rows carrying that
record's id (row ids are not changed by the updates). -/
theorem markFold_count (block_num : Nat) (ud : List TransactionRecord) :
    ∀ (db : DB) (k : Nat),
      (ud.foldl (markStep block_num) (db, k)).2 =
        k + (ud.map (fun t =>
          (db.transactions.filter (fun r => r.id == Enc.good t.id)).length)).sum := by
  induction ud with
  | nil =>
    intro db k
    simp
  | cons t ud ih =>
    intro db k
    rw [List.foldl_cons, ih]
    dsimp only [markStep]
    have hlen : ∀ t' : TransactionRecord,
        ((db.transactions.map (fun r =>
          if r.id == Enc.good t.id then { r with commit_height := some block_num }
          else r)).filter (fun r => r.id == Enc.good t'.id)).length =
        (db.transactions.filter (fun r => r.id == Enc.good t'.id)).length := by
      intro t'
      rw [← List.countP_eq_length_filter, ← List.countP_eq_length_filter, List.countP_map]
      apply List.countP_congr
      intro r _
      by_cases hc : r.id = Enc.good t.id
      · simp [Function.comp, hc]
      · simp [Function.comp, hc]
    rw [List.map_congr_left (fun t' _ => hlen t')]
    simp [Nat.add_assoc]

/-- C10: the update set of `mark_transactions_as_committed_by_note_id`
is decided solely from the caller-supplied candidate records — every
table row whose id equals the id of a candidate with intersecting output
notes has its `commit_height` overwritten to the block number (the
overwrite does not test whether the stored commit height is already
non-null), and every other row is left untouched. -/
theorem mark_transactions_update_by_candidate_id
    (uncommitted : List TransactionRecord) (note_ids : List Digest)
    (block_num : Nat) (db : DB) :
    (mark_transactions_as_committed_by_note_id uncommitted note_ids
        block_num db).1.transactions =
      db.transactions.map (fun r =>
        if (uncommitted.filter (fun t =>
              t.output_notes.any (fun n => note_ids.contains n.id))).any
            (fun t => r.id == Enc.good t.id)
        then { r with commit_height := some block_num } else r) := by
  unfold mark_transactions_as_committed_by_note_id
  exact markFold_transactions block_num _ db 0

/-- C4: when every candidate's id matches exactly one stored row,
`mark_transactions_as_committed_by_note_id` returns the number of
candidates whose recorded output notes intersect the note-id list, sets
`commit_height` to the block number on exactly the rows of those
candidates, and leaves every other row unchanged. -/
theorem mark_transactions_commit_marking
    (uncommitted : List TransactionRecord) (note_ids : List Digest)
    (block_num : Nat) (db : DB)
    (hone : ∀ t ∈ uncommitted,
      (db.transactions.filter (fun r => r.id == Enc.good t.id)).length = 1) :
    (mark_transactions_as_committed_by_note_id uncommitted note_ids block_num db).2 =
      (uncommitted.filter (fun t =>
        t.output_notes.any (fun n => note_ids.contains n.id))).length ∧
    (mark_transactions_as_committed_by_note_id uncommitted note_ids
        block_num db).1.transactions =
      db.transactions.map (fun r =>
        if (uncommitted.filter (fun t =>
              t.output_notes.any (fun n => note_ids.contains n.id))).any
            (fun t => r.id == Enc.good t.id)
        then { r with commit_height := some block_num } else r) := by
  constructor
  · unfold mark_transactions_as_committed_by_note_id
    rw [markFold_count]
    have hsel : ∀ t ∈ uncommitted.filter (fun t =>
        t.output_notes.any (fun n => note_ids.contains n.id)),
        (db.transactions.filter (fun r => r.id == Enc.good t.id)).length = 1 :=
      fun t ht => hone t (List.mem_of_mem_filter ht)
    rw [List.map_congr_left (fun t ht => hsel t ht)]
    simp
  · unfold mark_transactions_as_committed_by_note_id
    exact markFold_transactions block_num _ db 0

/-- First candidate transaction record: its output note 101 is in the
observed note-id list. -/
def trC4a : TransactionRecord :=
  { id := 1, account_id := 0, init_account_state := 0, final_account_state := 0
    input_note_nullifiers := [], output_notes := [{ note_id := 101 }]
    transaction_script := none, block_num := 0
    transaction_status := TransactionStatus.Pending }

/-- Second candidate transaction record, output notes disjoint from the
observed list. -/
def trC4b : TransactionRecord :=
  { id := 2, account_id := 0, init_account_state := 0, final_account_state := 0
    input_note_nullifiers := [], output_notes := [{ note_id := 102 }]
    transaction_script := none, block_num := 0
    transaction_status := TransactionStatus.Pending }

/-- Third candidate transaction record, output notes disjoint from the
observed list. -/
def trC4c : TransactionRecord :=
  { id := 3, account_id := 0, init_account_state := 0, final_account_state := 0
    input_note_nullifiers := [], output_notes := [{ note_id := 103 }]
    transaction_script := none, block_num := 0
    transaction_status := TransactionStatus.Pending }

/-- A stored uncommitted transaction row with the given id. -/
def rowC4 (i : Nat) : TxRow :=
  { id := Enc.good i, account_id := 0, init_account_state := Enc.good 0
    final_account_state := Enc.good 0, input_notes := Enc.good []
    output_notes := Enc.good [], script_hash := none, script_inputs := none
    block_num := 0, commit_height := none }

/-- A database holding the three uncommitted transaction rows. -/
def dbC4 : DB :=
  { input_notes := [], transactions := [rowC4 1, rowC4 2, rowC4 3]
    transaction_scripts := [], accounts := [], account_storages := []
    account_vaults := [] }

/-- Witness for C4: of three uncommitted transactions only the first's
output notes intersect the observed note-id list; the call returns 1,
sets that row's commit height and leaves the other two unchanged. -/
theorem mark_transactions_commit_marking_witness :
    (∀ t ∈ [trC4a, trC4b, trC4c],
      (dbC4.transactions.filter (fun r => r.id == Enc.good t.id)).length = 1) ∧
    ((mark_transactions_as_committed_by_note_id [trC4a, trC4b, trC4c] [101] 7 dbC4).2 =
      ([trC4a, trC4b, trC4c].filter (fun t =>
        t.output_notes.any (fun n => [101].contains n.id))).length ∧
    (mark_transactions_as_committed_by_note_id [trC4a, trC4b, trC4c] [101]
        7 dbC4).1.transactions =
      dbC4.transactions.map (fun r =>
        if ([trC4a, trC4b, trC4c].filter (fun t =>
              t.output_notes.any (fun n => [101].contains n.id))).any
            (fun t => r.id == Enc.good t.id)
        then { r with commit_height := some 7 } else r)) :=
  ⟨by decide, mark_transactions_commit_marking [trC4a, trC4b, trC4c] [101] 7 dbC4 (by decide)⟩

/-- Every element of the right list of a `Forall₂` relation has a
related element in the left list. -/
theorem forall2_mem_right {α β : Type} {R : α → β → Prop} {l : List α} {out : List β}
    (h : List.Forall₂ R l out) : ∀ b ∈ out, ∃ a ∈ l, R a b := by
  induction h with
  | nil => intro b hb; simp at hb
  | cons hr htail ih =>
    intro b hb
    rcases List.mem_cons.mp hb with hb2 | hb2
    · subst hb2; exact ⟨_, List.mem_cons_self _ _, hr⟩
    · obtain ⟨a, ha, hra⟩ := ih b hb2
      exact ⟨a, List.mem_cons_of_mem _ ha, hra⟩

/-- Every element of the left list of a `Forall₂` relation has a
related element in the right list. -/
theorem forall2_mem_left {α β : Type} {R : α → β → Prop} {l : List α} {out : List β}
    (h : List.Forall₂ R l out) : ∀ a ∈ l, ∃ b ∈ out, R a b := by
  induction h with
  | nil => intro a ha; simp at ha
  | cons hr htail ih =>
    intro a ha
    rcases List.mem_cons.mp ha with ha2 | ha2
    · subst ha2; exact ⟨_, List.mem_cons_self _ _, hr⟩
    · obtain ⟨b, hb, hrb⟩ := ih a ha2
      exact ⟨b, List.mem_cons_of_mem _ hb, hrb⟩

/-- A successful run of the nullifier-decoding loop of
`get_unspent_input_note_nullifiers` relates every selected row to the
digest its nullifier column encodes. -/
theorem unspent_mapM_forall2 (l : List NoteRow) :
    ∀ out, l.mapM unspentStep = Except.ok out →
      List.Forall₂ (fun (r : NoteRow) (n : Digest) => r.nullifier = Enc.good n) l out := by
  rw [← List.mapM'_eq_mapM]
  induction l with
  | nil =>
    intro out h
    simp [List.mapM', pure, Except.pure] at h
    subst h
    exact List.Forall₂.nil
  | cons r l ih =>
    intro out h
    simp only [List.mapM'] at h
    cases hn : r.nullifier with
    | bad k =>
      simp [unspentStep, hn, Enc.decode, Bind.bind, Except.bind] at h
    | good a =>
      simp only [unspentStep, hn, Enc.decode, Bind.bind, Except.bind] at h
      cases hrest : List.mapM' unspentStep l with
      | error err => rw [hrest] at h; simp at h
      | ok ys =>
        rw [hrest] at h
        simp [pure, Except.pure] at h
        subst h
        exact List.Forall₂.cons hn (ih ys hrest)

/-- C6: `get_unspent_input_note_nullifiers` returns exactly the
nullifiers of the records whose persisted status is `committed`: every
returned digest is the stored nullifier of some committed record, and
every committed record's nullifier is returned; pending and consumed
records contribute nothing. -/
theorem get_unspent_nullifiers_exact (db : DB) (out : List Digest)
    (h : get_unspent_input_note_nullifiers db = Except.ok out) :
    (∀ n ∈ out, ∃ r ∈ db.input_notes, r.status = "committed" ∧ r.nullifier = Enc.good n) ∧
    (∀ r ∈ db.input_notes, r.status = "committed" →
      ∃ n ∈ out, r.nullifier = Enc.good n) := by
  unfold get_unspent_input_note_nullifiers at h
  have h2 := unspent_mapM_forall2 _ _ h
  constructor
  · intro n hn
    obtain ⟨r, hr, hrel⟩ := forall2_mem_right h2 n hn
    have hr2 := List.mem_filter.mp hr
    exact ⟨r, hr2.1, by simpa using hr2.2, hrel⟩
  · intro r hr hst
    have hrf : r ∈ db.input_notes.filter (fun r => r.status == "committed") :=
      List.mem_filter.mpr ⟨hr, by simp [hst]⟩
    obtain ⟨n, hn, hrel⟩ := forall2_mem_left h2 r hrf
    exact ⟨n, hn, hrel⟩

/-- A stored note row persisted as committed, with nullifier digest
21. -/
def rowC6committed : NoteRow :=
  { note_id := 1, nullifier := Enc.good 21, script := Enc.good 0, vault := Enc.good 0
    inputs := Enc.good 0, serial_num := Enc.good 0, sender_id := 0, tag := 0
    inclusion_proof := none, recipients := 0, status := "committed", commit_height := 3 }

/-- A stored note row persisted as pending, with nullifier digest
22. -/
def rowC6pending : NoteRow :=
  { note_id := 2, nullifier := Enc.good 22, script := Enc.good 0, vault := Enc.good 0
    inputs := Enc.good 0, serial_num := Enc.good 0, sender_id := 0, tag := 0
    inclusion_proof := none, recipients := 0, status := "pending", commit_height := 0 }

/-- A database holding one committed and one pending note. -/
def dbC6 : DB :=
  { input_notes := [rowC6committed, rowC6pending], transactions := []
    transaction_scripts := [], accounts := [], account_storages := []
    account_vaults := [] }

/-- Witness for C6: with one committed and one pending note, the call
returns exactly the committed note's nullifier. -/
theorem get_unspent_nullifiers_exact_witness :
    get_unspent_input_note_nullifiers dbC6 = Except.ok [21] ∧
    ((∀ n ∈ [21], ∃ r ∈ dbC6.input_notes,
        r.status = "committed" ∧ r.nullifier = Enc.good n) ∧
      (∀ r ∈ dbC6.input_notes, r.status = "committed" →
        ∃ n ∈ [21], r.nullifier = Enc.good n)) :=
  ⟨rfl, get_unspent_nullifiers_exact dbC6 [21] rfl⟩

/-- The proof adaptation `serialize_input_note` performs before
persisting: the first merkle-path node is dropped when the path is
non-empty; every other field is kept. -/
def trimProof (proof : NoteInclusionProof) : NoteInclusionProof :=
  { block_num := proof.block_num, sub_hash := proof.sub_hash
    note_root := proof.note_root, node_index := proof.node_index
    note_path := if 0 < proof.note_path.length then proof.note_path.tail
      else proof.note_path }

/-- C3: inserting an `InputNoteRecord` carrying an inclusion proof and
reading it back by id recovers the same note and a proof whose merkle
path lost its first element — length L−1 for an original length L > 0,
still empty for L = 0 — while the block number, sub-hash, note root and
leaf index are persisted unchanged. -/
theorem insert_then_read_trims_proof_path
    (db : DB) (rec : InputNoteRecord) (proof : NoteInclusionProof)
    (hp : rec.inclusion_proof = some proof)
    (hfresh : ∀ r ∈ db.input_notes, r.note_id ≠ rec.note.id) :
    ∃ (db2 : DB) (rec2 : InputNoteRecord) (proof2 : NoteInclusionProof),
      insert_input_note db rec = Except.ok db2 ∧
      get_input_note_by_id db2 rec.note.id = Except.ok rec2 ∧
      rec2.note = rec.note ∧
      rec2.inclusion_proof = some proof2 ∧
      (0 < proof.note_path.length →
        proof2.note_path.length = proof.note_path.length - 1) ∧
      (proof.note_path.length = 0 → proof2.note_path = []) ∧
      proof2.block_num = proof.block_num ∧
      proof2.sub_hash = proof.sub_hash ∧
      proof2.note_root = proof.note_root ∧
      proof2.node_index = proof.node_index := by
  obtain ⟨note, ip⟩ := rec
  have hip : ip = some proof := hp
  subst hip
  have hrow : serialize_input_note { note := note, inclusion_proof := some proof } =
      { note_id := note.id
        nullifier := Enc.good note.nullifier
        script := Enc.good note.script
        vault := Enc.good note.assets
        inputs := Enc.good note.inputs
        serial_num := Enc.good note.serial_num
        sender_id := note.sender
        tag := note.tag
        inclusion_proof := some (Enc.good (trimProof proof))
        recipients := note.recipient
        status := "committed"
        commit_height := proof.block_num } := rfl
  refine ⟨{ db with input_notes := db.input_notes ++
      [serialize_input_note { note := note, inclusion_proof := some proof }] },
    { note := note, inclusion_proof := some (trimProof proof) },
    trimProof proof, ?_, ?_, rfl, rfl, ?_, ?_, rfl, rfl, rfl, rfl⟩
  · unfold insert_input_note insert_input_note_tx
    rw [hrow]
    have hany : db.input_notes.any (fun r => r.note_id == note.id) = false := by
      rw [List.any_eq_false]
      intro r hr
      simpa using hfresh r hr
    simp [hany]
  · unfold get_input_note_by_id
    have hfilter : (db.input_notes ++
        [serialize_input_note { note := note, inclusion_proof := some proof }]).filter
          (fun r => r.note_id == note.id) =
        [serialize_input_note { note := note, inclusion_proof := some proof }] := by
      rw [List.filter_append]
      have h1 : db.input_notes.filter (fun r => r.note_id == note.id) = [] := by
        rw [List.filter_eq_nil_iff]
        intro r hr
        simpa using hfresh r hr
      rw [h1, hrow]
      simp
    simp only [DB.input_notes] at hfilter ⊢
    rw [hfilter, hrow]
    rfl
  · intro hpos
    simp [trimProof, if_pos hpos]
  · intro hzero
    have hnil : proof.note_path = [] := List.length_eq_zero.mp hzero
    simp [trimProof, hnil]

/-- A concrete note for the proof-path round trip. -/
def noteC3 : Note :=
  { script := 7, inputs := 8, assets := 9, serial_num := 10, sender := 11, tag := 12 }

/-- A concrete inclusion proof with a two-node merkle path. -/
def proofC3 : NoteInclusionProof :=
  { block_num := 4, sub_hash := 5, note_root := 6, node_index := 2, note_path := [31, 32] }

/-- The record formed of `noteC3` and `proofC3`. -/
def recC3 : InputNoteRecord := { note := noteC3, inclusion_proof := some proofC3 }

/-- An empty database. -/
def dbC3 : DB :=
  { input_notes := [], transactions := [], transaction_scripts := []
    accounts := [], account_storages := [], account_vaults := [] }

/-- Witness for C3: inserting `recC3` (path length 2) into an empty
store and reading it back yields a proof whose path has length 1 with
all other proof fields unchanged. -/
theorem insert_then_read_trims_proof_path_witness :
    recC3.inclusion_proof = some proofC3 ∧
    (∀ r ∈ dbC3.input_notes, r.note_id ≠ recC3.note.id) ∧
    (∃ (db2 : DB) (rec2 : InputNoteRecord) (proof2 : NoteInclusionProof),
      insert_input_note dbC3 recC3 = Except.ok db2 ∧
      get_input_note_by_id db2 recC3.note.id = Except.ok rec2 ∧
      rec2.note = recC3.note ∧
      rec2.inclusion_proof = some proof2 ∧
      (0 < proofC3.note_path.length →
        proof2.note_path.length = proofC3.note_path.length - 1) ∧
      (proofC3.note_path.length = 0 → proof2.note_path = []) ∧
      proof2.block_num = proofC3.block_num ∧
      proof2.sub_hash = proofC3.sub_hash ∧
      proof2.note_root = proofC3.note_root ∧
      proof2.node_index = proofC3.node_index) :=
  ⟨rfl, by simp [dbC3], insert_then_read_trims_proof_path dbC3 recC3 proofC3 rfl
    (by simp [dbC3])⟩

/-- The `transactions` row `insert_proven_transaction_data` appends for
a transaction result carrying the script `s`. -/
def provenTxRowOf (txr : TransactionResult) (s : TransactionScript) : TxRow :=
  { id := Enc.good txr.executed_transaction.id
    account_id := txr.executed_transaction.account_id
    init_account_state := Enc.good txr.executed_transaction.initial_account_hash
    final_account_state := Enc.good txr.executed_transaction.final_account_hash
    input_notes := Enc.good (txr.executed_transaction.input_notes.map (fun x => x.id))
    output_notes := Enc.good txr.executed_transaction.output_notes
    script_hash := some (Enc.good s.hash)
    script_inputs := some (Enc.good s.inputs)
    block_num := txr.block_num
    commit_height := none }

/-- Characterization of a successful `insert_proven_transaction_data`
for a transaction carrying a script: the script row is appended only
when no row with its hash exists, and the transaction row referencing
the hash is appended. -/
theorem insert_proven_script_ok (db : DB) (txr : TransactionResult) (s : TransactionScript)
    (hscript : txr.transaction_script = some s)
    (hfresh : db.transactions.any
      (fun r => r.id == Enc.good txr.executed_transaction.id) = false) :
    insert_proven_transaction_data db txr = Except.ok
      { db with
        transaction_scripts :=
          if db.transaction_scripts.any (fun sc => sc.script_hash == Enc.good s.hash)
          then db.transaction_scripts
          else db.transaction_scripts ++
            [{ script_hash := Enc.good s.hash, program := some (Enc.good s.code) }]
        transactions := db.transactions ++ [provenTxRowOf txr s] } := by
  unfold insert_proven_transaction_data serialize_transaction_data
  rw [hscript]
  dsimp only
  by_cases hC : db.transaction_scripts.any
      (fun sc => sc.script_hash == Enc.good s.hash) = true
  · simp [hC, hfresh, provenTxRowOf]
  · simp only [Bool.not_eq_true] at hC
    simp [hC, hfresh, provenTxRowOf]

/-- C7: transaction-script insertion is idempotent and deduplicated by
hash — inserting two transactions whose scripts share one hash succeeds
both times, leaves exactly one row with that hash in the script table,
and appends two transaction rows that both reference that hash. -/
theorem transaction_script_insert_dedup
    (db : DB) (txr1 txr2 : TransactionResult) (s1 s2 : TransactionScript)
    (h1 : txr1.transaction_script = some s1) (h2 : txr2.transaction_script = some s2)
    (hh : s2.hash = s1.hash)
    (h0 : ∀ s ∈ db.transaction_scripts, s.script_hash ≠ Enc.good s1.hash)
    (hid1 : ∀ r ∈ db.transactions, r.id ≠ Enc.good txr1.executed_transaction.id)
    (hid2 : ∀ r ∈ db.transactions, r.id ≠ Enc.good txr2.executed_transaction.id)
    (hne : txr1.executed_transaction.id ≠ txr2.executed_transaction.id) :
    ∃ (db1 db2 : DB),
      insert_proven_transaction_data db txr1 = Except.ok db1 ∧
      insert_proven_transaction_data db1 txr2 = Except.ok db2 ∧
      (db2.transaction_scripts.filter
        (fun s => s.script_hash == Enc.good s1.hash)).length = 1 ∧
      db2.transactions = db.transactions ++ [provenTxRowOf txr1 s1, provenTxRowOf txr2 s2] ∧
      (provenTxRowOf txr1 s1).script_hash = some (Enc.good s1.hash) ∧
      (provenTxRowOf txr2 s2).script_hash = some (Enc.good s1.hash) := by
  have hany0 : db.transaction_scripts.any
      (fun sc => sc.script_hash == Enc.good s1.hash) = false := by
    rw [List.any_eq_false]
    intro sc hsc
    simpa using h0 sc hsc
  have hfresh1 : db.transactions.any
      (fun r => r.id == Enc.good txr1.executed_transaction.id) = false := by
    rw [List.any_eq_false]
    intro r hr
    simpa using hid1 r hr
  have e1 := insert_proven_script_ok db txr1 s1 h1 hfresh1
  rw [hany0] at e1
  simp only [if_false, Bool.false_eq_true] at e1
  set db1 : DB := { db with
    transaction_scripts := db.transaction_scripts ++
      [{ script_hash := Enc.good s1.hash, program := some (Enc.good s1.code) }]
    transactions := db.transactions ++ [provenTxRowOf txr1 s1] } with hdb1
  have hany1 : db1.transaction_scripts.any
      (fun sc => sc.script_hash == Enc.good s2.hash) = true := by
    simp [hdb1, hh]
  have hfresh2 : db1.transactions.any
      (fun r => r.id == Enc.good txr2.executed_transaction.id) = false := by
    simp only [hdb1, List.any_append]
    have ha : db.transactions.any
        (fun r => r.id == Enc.good txr2.executed_transaction.id) = false := by
      rw [List.any_eq_false]
      intro r hr
      simpa using hid2 r hr
    simp [ha, provenTxRowOf, fun h => hne h]
  have e2 := insert_proven_script_ok db1 txr2 s2 h2 hfresh2
  rw [hany1] at e2
  simp only [if_true] at e2
  refine ⟨db1, _, e1, e2, ?_, ?_, rfl, by simp [provenTxRowOf, hh]⟩
  · simp only [hdb1]
    rw [List.filter_append]
    have hnil : db.transaction_scripts.filter
        (fun s => s.script_hash == Enc.good s1.hash) = [] := by
      rw [List.filter_eq_nil_iff]
      intro sc hsc
      simpa using h0 sc hsc
    rw [hnil]
    simp
  · simp [hdb1]

/-- A concrete transaction script shared by two transactions. -/
def scrC7 : TransactionScript := { code := 50, hash := 77, inputs := [] }

/-- First transaction result carrying `scrC7`. -/
def txrC7a : TransactionResult :=
  { executed_transaction :=
      { id := 1, account_id := 0, initial_account_hash := 0, final_account_hash := 0
        input_notes := [], output_notes := [] }
    account_delta := { valid := true, new_storage := 0, new_vault := 0, new_nonce := 0 }
    created_notes := [], transaction_script := some scrC7, block_num := 0 }

/-- Second transaction result carrying `scrC7`, with a different
transaction id. -/
def txrC7b : TransactionResult :=
  { executed_transaction :=
      { id := 2, account_id := 0, initial_account_hash := 0, final_account_hash := 0
        input_notes := [], output_notes := [] }
    account_delta := { valid := true, new_storage := 0, new_vault := 0, new_nonce := 0 }
    created_notes := [], transaction_script := some scrC7, block_num := 0 }

/-- An empty database for the script-dedup witness. -/
def dbC7 : DB :=
  { input_notes := [], transactions := [], transaction_scripts := []
    accounts := [], account_storages := [], account_vaults := [] }

/-- Witness for C7 at concrete inputs: both inserts succeed, the script
table holds exactly one row with the shared hash, and both appended
transaction rows reference it. -/
theorem transaction_script_insert_dedup_witness :
    txrC7a.transaction_script = some scrC7 ∧
    txrC7b.transaction_script = some scrC7 ∧
    scrC7.hash = scrC7.hash ∧
    (∀ s ∈ dbC7.transaction_scripts, s.script_hash ≠ Enc.good scrC7.hash) ∧
    (∀ r ∈ dbC7.transactions, r.id ≠ Enc.good txrC7a.executed_transaction.id) ∧
    (∀ r ∈ dbC7.transactions, r.id ≠ Enc.good txrC7b.executed_transaction.id) ∧
    txrC7a.executed_transaction.id ≠ txrC7b.executed_transaction.id ∧
    (∃ (db1 db2 : DB),
      insert_proven_transaction_data dbC7 txrC7a = Except.ok db1 ∧
      insert_proven_transaction_data db1 txrC7b = Except.ok db2 ∧
      (db2.transaction_scripts.filter
        (fun s => s.script_hash == Enc.good scrC7.hash)).length = 1 ∧
      db2.transactions = dbC7.transactions ++
        [provenTxRowOf txrC7a scrC7, provenTxRowOf txrC7b scrC7] ∧
      (provenTxRowOf txrC7a scrC7).script_hash = some (Enc.good scrC7.hash) ∧
      (provenTxRowOf txrC7b scrC7).script_hash = some (Enc.good scrC7.hash)) :=
  ⟨rfl, rfl, rfl, by simp [dbC7], by simp [dbC7], by simp [dbC7], by decide,
    transaction_script_insert_dedup dbC7 txrC7a txrC7b scrC7 scrC7 rfl rfl rfl
      (by simp [dbC7]) (by simp [dbC7]) (by simp [dbC7]) (by decide)⟩

end Miden
